import Mathlib

/-!
Verification development for the SnakeGame-SP1 repository.

Two source files are embedded:
* `src/sp1/snake_verifier.rs` — the SP1 stub verifier `snake_game_verifier`
  over `u32` public inputs (modelled as `Nat` with explicit mod-2^32
  wrapping where the machine arithmetic could wrap);
* `wasm/src/lib.rs` — the browser-side `GameState` object with
  `new`, `check_collision` and `verify_score` over `i32`
  (modelled as `Int` with explicit two's-complement wrapping where the
  machine arithmetic could wrap; Rust `i32` division and remainder
  truncate toward zero, which is `Int.tdiv` / `Int.tmod`).
-/

/-! ## Machine-integer helpers -/

/-- The modulus of `u32` arithmetic. -/
def u32Mod : Nat := 2 ^ 32

/-- Wrapping `u32` addition (release-mode Rust semantics). -/
def u32add (a b : Nat) : Nat := (a + b) % u32Mod

/-- Wrapping `u32` subtraction (release-mode Rust semantics), assuming both
arguments are reduced `u32` values (below `2^32`). -/
def u32sub (a b : Nat) : Nat := (a + u32Mod - b) % u32Mod

/-- Checked `u32` value: `none` models the debug-mode overflow fault. -/
def checkedU32 (n : Nat) : Option Nat := if n < u32Mod then some n else none

/-- Checked `u32` subtraction: `none` models the debug-mode underflow fault. -/
def checkedU32sub (a b : Nat) : Option Nat := if b ≤ a then some (a - b) else none

/-- Reduce an integer into the `i32` range `[-2^31, 2^31)` by two's-complement
wrapping (release-mode Rust semantics; also the semantics of `as i32`). -/
def wrap32 (n : Int) : Int := (n + 2 ^ 31) % 2 ^ 32 - 2 ^ 31

/-- Checked `i32` value: `none` models the debug-mode overflow fault. -/
def checkedI32 (n : Int) : Option Int :=
  if -(2 ^ 31) ≤ n ∧ n < 2 ^ 31 then some n else none

/-! ## Embedding of `src/sp1/snake_verifier.rs` -/

/-- Public inputs of the SP1 program (`SnakeGamePublicInputs`).
`game_state_hash: [u8; 32]` is a list of bytes; `score` and `snake_length`
are `u32` values, carried as `Nat` (a real input satisfies `< 2^32`). -/
structure SnakeGamePublicInputs where
  game_state_hash : List Nat
  score : Nat
  snake_length : Nat
deriving DecidableEq, Repr

/-- Private inputs of the SP1 program (`SnakeGamePrivateInputs`). -/
structure SnakeGamePrivateInputs where
  game_moves : List Nat
  food_positions : List (Nat × Nat)
  initial_snake : List (Nat × Nat)
deriving DecidableEq, Repr

/-- Embedding of `snake_game_verifier` (snake_verifier.rs, lines 28–52):
`expected_snake_length = 3 + score / 10`;
`length_valid = (expected - 1 ..= expected + 1).contains(snake_length)`;
`score_valid = score % 10 == 0 || score == 0`;
result `length_valid && score_valid`.  The `u32` additions and the
subtraction are written with wrapping operators; for real (`< 2^32`)
scores they never actually wrap. -/
def snake_game_verifier (pubIn : SnakeGamePublicInputs)
    (privIn : SnakeGamePrivateInputs) : Bool :=
  let expected_snake_length := u32add 3 (pubIn.score / 10)
  let length_valid :=
    decide (u32sub expected_snake_length 1 ≤ pubIn.snake_length) &&
    decide (pubIn.snake_length ≤ u32add expected_snake_length 1)
  let score_valid := decide (pubIn.score % 10 = 0) || decide (pubIn.score = 0)
  length_valid && score_valid

/-- `snake_game_verifier` with every `u32` arithmetic step checked, as in a
debug build: `none` models an arithmetic fault (overflow or underflow). -/
def snake_game_verifier_checked (pubIn : SnakeGamePublicInputs)
    (privIn : SnakeGamePrivateInputs) : Option Bool :=
  (checkedU32 (3 + pubIn.score / 10)).bind fun expected_snake_length =>
  (checkedU32sub expected_snake_length 1).bind fun lo =>
  (checkedU32 (expected_snake_length + 1)).bind fun hi =>
  some ((decide (lo ≤ pubIn.snake_length) && decide (pubIn.snake_length ≤ hi)) &&
    (decide (pubIn.score % 10 = 0) || decide (pubIn.score = 0)))

/-- Variant of `snake_game_verifier` whose score check drops the
`score == 0` disjunct; used to state the redundancy claim about line 48. -/
def snake_game_verifier_noZeroDisjunct (pubIn : SnakeGamePublicInputs)
    (privIn : SnakeGamePrivateInputs) : Bool :=
  let expected_snake_length := u32add 3 (pubIn.score / 10)
  let length_valid :=
    decide (u32sub expected_snake_length 1 ≤ pubIn.snake_length) &&
    decide (pubIn.snake_length ≤ u32add expected_snake_length 1)
  let score_valid := decide (pubIn.score % 10 = 0)
  length_valid && score_valid

/-! ## Embedding of `wasm/src/lib.rs` -/

/-- `Position` (lib.rs, lines 3–15): a pair of `i32` coordinates. -/
structure Position where
  x : Int
  y : Int
deriving DecidableEq, Repr

/-- `Position::new`. -/
def Position.new (x y : Int) : Position := ⟨x, y⟩

/-- `GameState` (lib.rs, lines 17–23). -/
structure GameState where
  snake : List Position
  food : Position
  grid_width : Int
  grid_height : Int
deriving DecidableEq, Repr

/-- `GameState::new` (lib.rs, lines 28–44): the initial snake is the three
cells `(w/2, h/2), (w/2 - 1, h/2), (w/2 - 2, h/2)` (head first), with `i32`
division truncating toward zero. -/
def GameState.new (grid_width grid_height : Int) : GameState :=
  let initial_x := Int.tdiv grid_width 2
  let initial_y := Int.tdiv grid_height 2
  { snake := [Position.new initial_x initial_y,
              Position.new (initial_x - 1) initial_y,
              Position.new (initial_x - 2) initial_y],
    food := Position.new 0 0,
    grid_width := grid_width,
    grid_height := grid_height }

/-- `GameState::check_collision` (lib.rs, lines 46–60): wall test first, then
the loop `for i in 1..snake.len()` comparing `(head_x, head_y)` against
`snake[i]`; the loop over indices `1..len` is the fold over `snake.drop 1`. -/
def GameState.check_collision (gs : GameState) (head_x head_y : Int) : Bool :=
  if head_x < 0 ∨ gs.grid_width ≤ head_x ∨ head_y < 0 ∨ gs.grid_height ≤ head_y then
    true
  else
    (gs.snake.drop 1).any (fun p => decide (head_x = p.x) && decide (head_y = p.y))

/-- `GameState::verify_score` (lib.rs, lines 62–69):
`expected_length = 3 + score / 10` (cannot wrap for an `i32` score);
`actual_length = snake.len() as i32` (a truncating cast);
result `(expected_length - actual_length).abs() <= 1 && (score % 10 == 0 || score == 0)`.
The subtraction and `abs` are written with release-mode wrapping; for any
snake a real game can build they never actually wrap. -/
def GameState.verify_score (gs : GameState) (score : Int) : Bool :=
  let expected_length := 3 + Int.tdiv score 10
  let actual_length := wrap32 (gs.snake.length : Int)
  let diff := wrap32 (expected_length - actual_length)
  decide (wrap32 (if diff < 0 then -diff else diff) ≤ 1) &&
    (decide (Int.tmod score 10 = 0) || decide (score = 0))

/-- `GameState::verify_score` with every `i32` arithmetic step checked, as in
a debug build: `none` models an arithmetic fault.  The `usize as i32` cast
never faults (it truncates), so it stays `wrap32`. -/
def GameState.verify_score_checked (gs : GameState) (score : Int) : Option Bool :=
  (checkedI32 (3 + Int.tdiv score 10)).bind fun expected_length =>
  let actual_length := wrap32 (gs.snake.length : Int)
  (checkedI32 (expected_length - actual_length)).bind fun diff =>
  (checkedI32 (if diff < 0 then -diff else diff)).bind fun a =>
  some (decide (a ≤ 1) && (decide (Int.tmod score 10 = 0) || decide (score = 0)))

/-- Variant of `GameState::verify_score` whose score check drops the
`score == 0` disjunct; used to state the redundancy claim about line 68. -/
def GameState.verify_score_noZeroDisjunct (gs : GameState) (score : Int) : Bool :=
  let expected_length := 3 + Int.tdiv score 10
  let actual_length := wrap32 (gs.snake.length : Int)
  let diff := wrap32 (expected_length - actual_length)
  decide (wrap32 (if diff < 0 then -diff else diff) ≤ 1) &&
    decide (Int.tmod score 10 = 0)

/-! ## Spec-side property definitions (for stating claims) -/

/-- Two grid cells are adjacent (contiguous) when they differ by exactly one
step in exactly one coordinate. -/
def adjacentCells (p q : Position) : Bool :=
  decide ((p.x - q.x).natAbs + (p.y - q.y).natAbs = 1)

/-- A snake body is contiguous when every consecutive pair of segments is
adjacent. -/
def contiguousBody : List Position → Bool
  | [] => true
  | [_] => true
  | p :: q :: rest => adjacentCells p q && contiguousBody (q :: rest)

/-- A position lies inside the `[0, w) × [0, h)` grid. -/
def inGrid (w h : Int) (p : Position) : Bool :=
  decide (0 ≤ p.x) && decide (p.x < w) && decide (0 ≤ p.y) && decide (p.y < h)

/-! ## Helper lemmas -/

/-- The `score == 0` disjunct of the `u32` score check is subsumed by
`score % 10 == 0`. -/
lemma scoreOrZeroNat (s : Nat) :
    (decide (s % 10 = 0) || decide (s = 0)) = decide (s % 10 = 0) := by
  by_cases h : s = 0 <;> simp [h]

/-- The `score == 0` disjunct of the `i32` score check is subsumed by
`score % 10 == 0`. -/
lemma scoreOrZeroInt (s : Int) :
    (decide (Int.tmod s 10 = 0) || decide (s = 0)) = decide (Int.tmod s 10 = 0) := by
  by_cases h : s = 0
  · subst h; decide
  · simp [h]

/-! ## Claims about `snake_game_verifier` -/

/-- C1: for every public input (with `score` a `u32` value), the verifier
returns `true` iff `score` is a multiple of 10 and `snake_length` lies within
±1 of `3 + score / 10` (integer division). -/
theorem claim_C1_verifier_iff (pubIn : SnakeGamePublicInputs)
    (privIn : SnakeGamePrivateInputs) (hs : pubIn.score < 2 ^ 32) :
    snake_game_verifier pubIn privIn = true ↔
      (pubIn.score % 10 = 0 ∧
        3 + pubIn.score / 10 - 1 ≤ pubIn.snake_length ∧
        pubIn.snake_length ≤ 3 + pubIn.score / 10 + 1) := by
  simp only [snake_game_verifier, u32add, u32sub, u32Mod, Bool.and_eq_true,
    Bool.or_eq_true, decide_eq_true_eq]
  omega

/-- Witness for C1 at score 10, snake length 4. -/
theorem claim_C1_verifier_iff_witness :
    (SnakeGamePublicInputs.mk (List.replicate 32 0) 10 4).score < 2 ^ 32 ∧
      (snake_game_verifier (SnakeGamePublicInputs.mk (List.replicate 32 0) 10 4)
          (SnakeGamePrivateInputs.mk [] [] []) = true ↔
        (10 % 10 = 0 ∧ 3 + 10 / 10 - 1 ≤ 4 ∧ 4 ≤ 3 + 10 / 10 + 1)) :=
  ⟨by decide, claim_C1_verifier_iff _ _ (by decide)⟩

/-- C2: the verifier ignores the private inputs — any two private witnesses
give the same result for a fixed public input. -/
theorem claim_C2_private_independent (pubIn : SnakeGamePublicInputs)
    (privIn1 privIn2 : SnakeGamePrivateInputs) :
    snake_game_verifier pubIn privIn1 = snake_game_verifier pubIn privIn2 := rfl

/-- C7: verification is deterministic — the verifier is a pure function of
its arguments, so running it twice on the same public inputs and the same
private witness yields the identical boolean. -/
theorem claim_C7_deterministic (pubIn : SnakeGamePublicInputs)
    (privIn : SnakeGamePrivateInputs) :
    snake_game_verifier pubIn privIn = snake_game_verifier pubIn privIn := rfl

/-- C9: in both score checks the `score == 0` disjunct is redundant — the
verifier and `verify_score` coincide with their variants that drop it. -/
theorem claim_C9_zero_disjunct_redundant :
    (∀ (pubIn : SnakeGamePublicInputs) (privIn : SnakeGamePrivateInputs),
        snake_game_verifier pubIn privIn =
          snake_game_verifier_noZeroDisjunct pubIn privIn) ∧
    (∀ (gs : GameState) (score : Int),
        gs.verify_score score = GameState.verify_score_noZeroDisjunct gs score) := by
  constructor
  · intro pubIn privIn
    simp only [snake_game_verifier, snake_game_verifier_noZeroDisjunct, scoreOrZeroNat]
  · intro gs score
    simp only [GameState.verify_score, GameState.verify_score_noZeroDisjunct, scoreOrZeroInt]

set_option maxRecDepth 8192 in
/-- C6: totality — with every arithmetic step checked as in a debug build,
the verifier never faults on any `u32` input, and `verify_score` never
faults on any `i32` score for any state whose snake is of any length a
real game could build (`GameState::new` only ever builds length 3; the bound
covers every length up to 1 932 735 286). In particular `expected_snake_length - 1`
never underflows on `u32`. -/
theorem claim_C6_total_no_fault (pubIn : SnakeGamePublicInputs)
    (privIn : SnakeGamePrivateInputs) (gs : GameState) (score : Int)
    (h1 : pubIn.score < 2 ^ 32) (h2 : -(2 ^ 31) ≤ score) (h3 : score < 2 ^ 31)
    (h4 : gs.snake.length ≤ 1932735286) :
    snake_game_verifier_checked pubIn privIn = some (snake_game_verifier pubIn privIn) ∧
    GameState.verify_score_checked gs score = some (gs.verify_score score) := by
  constructor
  · simp only [snake_game_verifier_checked, snake_game_verifier, checkedU32,
      checkedU32sub, u32add, u32sub, u32Mod]
    rw [if_pos (by omega), Option.some_bind, if_pos (by omega), Option.some_bind,
      if_pos (by omega), Option.some_bind]
    have e1 : (3 + pubIn.score / 10) % 2 ^ 32 = 3 + pubIn.score / 10 := by omega
    have e2 : (3 + pubIn.score / 10 + 2 ^ 32 - 1) % 2 ^ 32 = 3 + pubIn.score / 10 - 1 := by
      omega
    have e3 : (3 + pubIn.score / 10 + 1) % 2 ^ 32 = 3 + pubIn.score / 10 + 1 := by omega
    simp only [e1, e2, e3]
  · have ht : (Int.tdiv score 10).natAbs = score.natAbs / 10 := Int.natAbs_tdiv score 10
    simp only [GameState.verify_score_checked, GameState.verify_score, checkedI32, wrap32]
    have e1 : ((gs.snake.length : Int) + 2 ^ 31) % 2 ^ 32 - 2 ^ 31 = (gs.snake.length : Int) := by
      omega
    simp only [e1]
    rw [if_pos (by omega), Option.some_bind, if_pos (by omega), Option.some_bind]
    have e3 : (3 + Int.tdiv score 10 - (gs.snake.length : Int) + 2 ^ 31) % 2 ^ 32 - 2 ^ 31 =
        3 + Int.tdiv score 10 - (gs.snake.length : Int) := by omega
    simp only [e3]
    set d := 3 + Int.tdiv score 10 - (gs.snake.length : Int) with hdd
    by_cases hD : d < 0
    · rw [if_pos hD, if_pos (by omega), Option.some_bind]
      have e4 : (-d + 2 ^ 31) % 2 ^ 32 - 2 ^ 31 = -d := by omega
      simp only [e4]
    · rw [if_neg hD, if_pos (by omega), Option.some_bind]
      have e4 : (d + 2 ^ 31) % 2 ^ 32 - 2 ^ 31 = d := by omega
      simp only [e4]

/-- Witness for C6 at score `u32::MAX` on the SP1 side and score `-7` with the
freshly constructed state on the wasm side. -/
theorem claim_C6_total_no_fault_witness :
    ((SnakeGamePublicInputs.mk (List.replicate 32 0) 4294967295 3).score < 2 ^ 32 ∧
      -(2 ^ 31) ≤ (-7 : Int) ∧ (-7 : Int) < 2 ^ 31 ∧
      (GameState.new 10 10).snake.length ≤ 1932735286) ∧
    (snake_game_verifier_checked (SnakeGamePublicInputs.mk (List.replicate 32 0) 4294967295 3)
        (SnakeGamePrivateInputs.mk [] [] []) =
      some (snake_game_verifier (SnakeGamePublicInputs.mk (List.replicate 32 0) 4294967295 3)
        (SnakeGamePrivateInputs.mk [] [] [])) ∧
      GameState.verify_score_checked (GameState.new 10 10) (-7) =
        some ((GameState.new 10 10).verify_score (-7))) :=
  ⟨by refine ⟨by decide, by decide, by decide, by decide⟩,
    claim_C6_total_no_fault _ _ _ _ (by decide) (by decide) (by decide) (by decide)⟩

/-! ## Claims about `GameState` -/

/-- C5: a query at a wall coordinate always reports a collision, for every
state (hence regardless of history). -/
theorem claim_C5_wall_always (gs : GameState) (head_x head_y : Int)
    (h : head_x < 0 ∨ gs.grid_width ≤ head_x ∨ head_y < 0 ∨ gs.grid_height ≤ head_y) :
    gs.check_collision head_x head_y = true := by
  simp only [GameState.check_collision]
  rw [if_pos h]

/-- Witness for C5 on the default 10×10 state at `(-1, 5)`. -/
theorem claim_C5_wall_always_witness :
    ((-1 : Int) < 0 ∨ (GameState.new 10 10).grid_width ≤ -1 ∨ (5 : Int) < 0 ∨
      (GameState.new 10 10).grid_height ≤ 5) ∧
    (GameState.new 10 10).check_collision (-1) 5 = true :=
  ⟨Or.inl (by decide), claim_C5_wall_always _ _ _ (Or.inl (by decide))⟩

/-- C3 is false as stated: on `GameState::new(10, 10)` the snake is
`[(5,5), (4,5), (3,5)]`, the tail cell — the one a move would vacate — is
`(3,5)`, it is in bounds, yet `check_collision(3, 5)` reports a collision:
the loop `for i in 1..len` includes the tail segment. -/
theorem claim_C3_counterexample :
    (GameState.new 10 10).snake.getLast? = some (Position.new 3 5) ∧
    inGrid 10 10 (Position.new 3 5) = true ∧
    (GameState.new 10 10).check_collision 3 5 = true := by decide

/-- C3 (amended): for an in-bounds query, `check_collision` returns `true`
exactly when the query equals some segment at index ≥ 1 — only the head is
excluded; the current tail is included. -/
theorem claim_C3_amended_self_collision (gs : GameState) (head_x head_y : Int)
    (hx0 : 0 ≤ head_x) (hxw : head_x < gs.grid_width)
    (hy0 : 0 ≤ head_y) (hyh : head_y < gs.grid_height) :
    gs.check_collision head_x head_y = true ↔
      ∃ p ∈ gs.snake.drop 1, head_x = p.x ∧ head_y = p.y := by
  simp only [GameState.check_collision]
  rw [if_neg (by omega)]
  simp [List.any_eq_true]

/-- Witness for the amended C3 on the default 10×10 state at `(4, 5)`. -/
theorem claim_C3_amended_self_collision_witness :
    ((0 : Int) ≤ 4 ∧ (4 : Int) < (GameState.new 10 10).grid_width ∧
      (0 : Int) ≤ 5 ∧ (5 : Int) < (GameState.new 10 10).grid_height) ∧
    ((GameState.new 10 10).check_collision 4 5 = true ↔
      ∃ p ∈ (GameState.new 10 10).snake.drop 1, (4 : Int) = p.x ∧ (5 : Int) = p.y) :=
  ⟨by decide,
    claim_C3_amended_self_collision _ _ _ (by decide) (by decide) (by decide) (by decide)⟩

/-- C4: the code contradicts the claimed exactness.  On `GameState::new(10, 10)`
(snake length 3) the claimed score 10 implies the exact length
`3 + 10/10 = 4 ≠ 3`, yet `verify_score(10)` accepts it — the ±1 tolerance
band is real. -/
theorem claim_C4_tolerance_accepts_inexact :
    (GameState.new 10 10).verify_score 10 = true ∧
    (GameState.new 10 10).snake.length = 3 ∧
    3 + Int.tdiv 10 10 ≠ ((GameState.new 10 10).snake.length : Int) := by decide

/-- C10: `check_collision` skips the head segment: an in-bounds query equal
to `snake[0]` and different from every segment at index ≥ 1 reports no
collision. -/
theorem claim_C10_head_excluded (gs : GameState) (head_x head_y : Int)
    (hx0 : 0 ≤ head_x) (hxw : head_x < gs.grid_width)
    (hy0 : 0 ≤ head_y) (hyh : head_y < gs.grid_height)
    (hhead : ∃ p0, gs.snake.head? = some p0 ∧ p0.x = head_x ∧ p0.y = head_y)
    (hbody : ∀ p ∈ gs.snake.drop 1, ¬(p.x = head_x ∧ p.y = head_y)) :
    gs.check_collision head_x head_y = false := by
  simp only [GameState.check_collision]
  rw [if_neg (by omega)]
  rw [List.any_eq_false]
  intro p hp
  simp only [Bool.and_eq_true, decide_eq_true_eq]
  intro hcontra
  exact hbody p hp ⟨hcontra.1.symm, hcontra.2.symm⟩

/-- Witness for C10 on the default 10×10 state at the head cell `(5, 5)`. -/
theorem claim_C10_head_excluded_witness :
    ((0 : Int) ≤ 5 ∧ (5 : Int) < (GameState.new 10 10).grid_width ∧
      (0 : Int) ≤ 5 ∧ (5 : Int) < (GameState.new 10 10).grid_height ∧
      (∃ p0, (GameState.new 10 10).snake.head? = some p0 ∧ p0.x = 5 ∧ p0.y = 5) ∧
      (∀ p ∈ (GameState.new 10 10).snake.drop 1, ¬(p.x = 5 ∧ p.y = 5))) ∧
    (GameState.new 10 10).check_collision 5 5 = false :=
  ⟨⟨by decide, by decide, by decide, by decide,
      ⟨Position.new 5 5, by decide, by decide, by decide⟩, by decide⟩,
    claim_C10_head_excluded _ _ _ (by decide) (by decide) (by decide) (by decide)
      ⟨Position.new 5 5, by decide, by decide, by decide⟩ (by decide)⟩

/-- C8 is false as stated: `GameState::new(1, 1)` has positive grid bounds
but puts the snake at `[(0,0), (-1,0), (-2,0)]`, and `(-1, 0)` is outside
the `[0,1) × [0,1)` grid. -/
theorem claim_C8_counterexample :
    ((0 : Int) < 1 ∧ (0 : Int) < 1) ∧
    Position.new (-1) 0 ∈ (GameState.new 1 1).snake ∧
    inGrid 1 1 (Position.new (-1) 0) = false := by decide

/-- C8 (amended): for `grid_width ≥ 4` and `grid_height ≥ 1`, the state built
by `GameState::new` satisfies the snake-state data model: the snake is a
head-first sequence of length exactly 3 of pairwise-distinct contiguous
positions, all inside `[0, grid_width) × [0, grid_height)`. -/
theorem claim_C8_amended_init_invariants (grid_width grid_height : Int)
    (hw : 4 ≤ grid_width) (hh : 1 ≤ grid_height) :
    (GameState.new grid_width grid_height).snake.length = 3 ∧
    (GameState.new grid_width grid_height).snake.Pairwise (fun p q => p ≠ q) ∧
    contiguousBody (GameState.new grid_width grid_height).snake = true ∧
    ∀ p ∈ (GameState.new grid_width grid_height).snake,
      inGrid grid_width grid_height p = true := by
  have hwq : Int.tdiv grid_width 2 = grid_width / 2 := Int.tdiv_eq_ediv (by omega) (by norm_num)
  have hhq : Int.tdiv grid_height 2 = grid_height / 2 := Int.tdiv_eq_ediv (by omega) (by norm_num)
  refine ⟨rfl, ?_, ?_, ?_⟩
  · simp only [GameState.new, Position.new]
    refine List.Pairwise.cons ?_ (List.Pairwise.cons ?_ (List.Pairwise.cons ?_ List.Pairwise.nil))
    · intro a ha
      rcases List.mem_cons.mp ha with h | h
      · subst h; intro hc; rw [Position.mk.injEq] at hc; omega
      · rcases List.mem_cons.mp h with h2 | h2
        · subst h2; intro hc; rw [Position.mk.injEq] at hc; omega
        · exact absurd h2 (List.not_mem_nil _)
    · intro a ha
      rcases List.mem_cons.mp ha with h | h
      · subst h; intro hc; rw [Position.mk.injEq] at hc; omega
      · exact absurd h (List.not_mem_nil _)
    · intro a ha
      exact absurd ha (List.not_mem_nil _)
  · simp only [GameState.new, Position.new, contiguousBody, adjacentCells,
      Bool.and_eq_true, decide_eq_true_eq]
    refine ⟨?_, ?_, trivial⟩ <;> omega
  · intro p hp
    simp only [GameState.new, Position.new, List.mem_cons, List.not_mem_nil, or_false] at hp
    rcases hp with h | h | h <;> subst h <;>
      simp only [inGrid, Bool.and_eq_true, decide_eq_true_eq, hwq, hhq] <;> omega

/-- Witness for the amended C8 on a 10×10 grid. -/
theorem claim_C8_amended_init_invariants_witness :
    ((4 : Int) ≤ 10 ∧ (1 : Int) ≤ 10) ∧
    ((GameState.new 10 10).snake.length = 3 ∧
      (GameState.new 10 10).snake.Pairwise (fun p q => p ≠ q) ∧
      contiguousBody (GameState.new 10 10).snake = true ∧
      ∀ p ∈ (GameState.new 10 10).snake, inGrid 10 10 p = true) :=
  ⟨⟨by decide, by decide⟩, claim_C8_amended_init_invariants 10 10 (by decide) (by decide)⟩
